import Mathlib

/-!
Shallow embedding of the CV layout-optimization engine
(`backend/app/services/layout_service.py`) and proofs about it.

All millimeter quantities are modelled as exact rationals (`ℚ`); Python's
`int(...)` truncation toward zero is modelled by `intTrunc`, `math.ceil`
by `Int.ceil`.
-/

/-- Python `int(q)` for a rational `q`: truncation toward zero. -/
def intTrunc (q : ℚ) : ℤ :=
  if 0 ≤ q then ⌊q⌋ else -⌊-q⌋

/-- `PageConstraints` dataclass: page size and margins in millimeters. -/
structure PageConstraints where
  width_mm : ℚ
  height_mm : ℚ
  margin_top_mm : ℚ
  margin_bottom_mm : ℚ
  margin_left_mm : ℚ
  margin_right_mm : ℚ
deriving DecidableEq, Inhabited

/-- `content_width_mm` property. -/
def PageConstraints.content_width_mm (c : PageConstraints) : ℚ :=
  c.width_mm - c.margin_left_mm - c.margin_right_mm

/-- `content_height_mm` property. -/
def PageConstraints.content_height_mm (c : PageConstraints) : ℚ :=
  c.height_mm - c.margin_top_mm - c.margin_bottom_mm

/-- Default `PageConstraints()`: A4 with 20mm margins. -/
def defaultPageConstraints : PageConstraints :=
  ⟨210, 297, 20, 20, 20, 20⟩

/-- `LayoutType` enum. -/
inductive LayoutType where
  | SINGLE_COLUMN
  | TWO_COLUMN
  | MODERN_SIDEBAR
  | EXECUTIVE
  | ACADEMIC
  | CREATIVE
deriving DecidableEq, Inhabited

/-- `SectionPriority` enum. -/
inductive SectionPriority where
  | CRITICAL
  | HIGH
  | MEDIUM
  | LOW
deriving DecidableEq, Inhabited

/-- `SectionDimensions` dataclass. -/
structure SectionDimensions where
  section_id : String
  section_type : String
  priority : SectionPriority
  min_height_mm : ℚ
  preferred_height_mm : ℚ
  max_height_mm : ℚ
  can_split : Bool
  items_count : ℕ
deriving DecidableEq, Inhabited

/-- `LayoutElement` dataclass. -/
structure LayoutElement where
  element_id : String
  element_type : String
  x_mm : ℚ
  y_mm : ℚ
  width_mm : ℚ
  height_mm : ℚ
  page_number : ℕ
  z_index : ℤ
deriving DecidableEq, Inhabited

/-- `LayoutResult` dataclass. -/
structure LayoutResult where
  pages : List (List LayoutElement)
  total_pages : ℕ
  overflow_sections : List String
  layout_score : ℚ
  recommendations : List String
deriving DecidableEq, Inhabited

/-- `ContentMeasurer.char_widths.get(font_size, 2.2)`. -/
def char_width_for (font_size : ℤ) : ℚ :=
  if font_size = 24 then 4.8
  else if font_size = 16 then 3.2
  else if font_size = 14 then 2.8
  else if font_size = 11 then 2.2
  else if font_size = 9 then 1.8
  else 2.2

/-- `ContentMeasurer.estimate_text_height`. -/
def estimate_text_height (text : String) (font_size : ℤ)
    (max_width_mm : ℚ) (line_height : ℚ) : ℚ :=
  if text.length = 0 then 0
  else
    let char_width := char_width_for font_size
    let chars_per_line := intTrunc (max_width_mm / char_width)
    if chars_per_line ≤ 0 then (font_size : ℚ) * 0.35
    else
      let lines_needed : ℤ := ⌈(text.length : ℚ) / (chars_per_line : ℚ)⌉
      let line_height_mm : ℚ := (font_size : ℚ) * 0.35 * line_height
      (lines_needed : ℚ) * line_height_mm

/-- `ContentMeasurer.estimate_list_height`: sum of item heights plus 2mm gaps. -/
def estimate_list_height (items : List String) (font_size : ℤ)
    (max_width_mm : ℚ) (line_height : ℚ) : ℚ :=
  (items.map (fun item =>
    estimate_text_height item font_size max_width_mm line_height + 2)).sum

/-- The `personal_details` mapping (all keys optional strings, `""` = absent). -/
structure PersonalDetails where
  full_name : String
  desired_position : String
  email : String
  phone : String
  location : String
  linkedin_url : String
deriving DecidableEq, Inhabited

/-- `ContentMeasurer.estimate_header_height`. -/
def estimate_header_height (pd : PersonalDetails) (max_width_mm : ℚ) : ℚ :=
  let name_part : ℚ :=
    if pd.full_name.length ≠ 0 then
      estimate_text_height pd.full_name 24 max_width_mm 1.3 + 5
    else 0
  let position_part : ℚ :=
    if pd.desired_position.length ≠ 0 then
      estimate_text_height pd.desired_position 16 max_width_mm 1.3 + 3
    else 0
  let contact_items :=
    [pd.email, pd.phone, pd.location, pd.linkedin_url].filter
      (fun s => s.length ≠ 0)
  let contact_part : ℚ :=
    if contact_items.length ≠ 0 then
      (⌈(contact_items.length : ℚ) / 2⌉ : ℚ) * (11 * 0.35 * 1.4) + 5
    else 0
  name_part + position_part + contact_part + 20

/-- One `work_experience` entry (only `achievements` is consulted by the
layout engine). -/
structure Experience where
  achievements : List String
deriving DecidableEq, Inhabited

/-- One `education` entry (its fields are never read by the layout engine,
which only counts entries). -/
structure Education where
  degree : String
  institution : String
deriving DecidableEq, Inhabited

/-- One `projects` entry. -/
structure Project where
  description : String
  technologies : List String
deriving DecidableEq, Inhabited

/-- The content mapping consumed by the engine. `personal_details = none`
models the key being absent; the empty string / empty list model both an
absent key and a present-but-falsy value, which the code treats alike
(everywhere except the header, which tests key presence). -/
structure CVData where
  personal_details : Option PersonalDetails
  professional_summary : String
  work_experience : List Experience
  skills : List (String × List String)
  education : List Education
  projects : List Project
deriving DecidableEq, Inhabited

/-- `SectionAnalyzer._estimate_summary_height`. -/
def estimate_summary_height (summary : String) (max_width_mm : ℚ) : ℚ :=
  let section_title_height : ℚ := 14 * 0.35 * 1.4 + 8
  let text_height := estimate_text_height summary 11 max_width_mm 1.5
  section_title_height + text_height + 10

/-- `SectionAnalyzer._estimate_experience_height` (height, item count). -/
def estimate_experience_height (experience_list : List Experience)
    (max_width_mm : ℚ) : ℚ × ℕ :=
  let section_title_height : ℚ := 14 * 0.35 * 1.4 + 8
  let total := section_title_height +
    (experience_list.map (fun exp =>
      let job_info_height : ℚ := 2 * (11 * 0.35 * 1.4) + 5
      let job_info_height :=
        if exp.achievements.length ≠ 0 then
          job_info_height +
            estimate_list_height exp.achievements 11 (max_width_mm - 10) 1.5
        else job_info_height
      job_info_height + 15)).sum
  (total, experience_list.length)

/-- `SectionAnalyzer._estimate_skills_height`. -/
def estimate_skills_height (skills : List (String × List String))
    (max_width_mm : ℚ) (layout_type : LayoutType) : ℚ :=
  let section_title_height : ℚ := 14 * 0.35 * 1.4 + 8
  let skills_height : ℚ :=
    if layout_type = LayoutType.TWO_COLUMN then
      (skills.length : ℚ) * 25
    else
      let total_skills : ℕ := (skills.map (fun p => p.2.length)).sum
      let skills_per_row : ℤ := max 1 (intTrunc (max_width_mm / 40))
      let rows_needed : ℤ := ⌈(total_skills : ℚ) / (skills_per_row : ℚ)⌉
      (rows_needed : ℚ) * 15 + (skills.length : ℚ) * 10
  section_title_height + skills_height + 10

/-- `SectionAnalyzer._estimate_education_height` (height, item count). -/
def estimate_education_height (education_list : List Education)
    (max_width_mm : ℚ) : ℚ × ℕ :=
  let section_title_height : ℚ := 14 * 0.35 * 1.4 + 8
  let total := section_title_height +
    (education_list.map (fun _ => (3 * (11 * 0.35 * 1.4) + 10 : ℚ))).sum
  (total, education_list.length)

/-- `SectionAnalyzer._estimate_projects_height`. -/
def estimate_projects_height (projects_list : List Project)
    (max_width_mm : ℚ) : ℚ :=
  let section_title_height : ℚ := 14 * 0.35 * 1.4 + 8
  section_title_height +
    (projects_list.map (fun project =>
      let project_height : ℚ := 11 * 0.35 * 1.4 + 3
      let project_height :=
        if project.description.length ≠ 0 then
          project_height +
            estimate_text_height project.description 10 max_width_mm 1.4
        else project_height
      let project_height :=
        if project.technologies.length ≠ 0 then
          project_height + (10 * 0.35 * 1.4 + 5)
        else project_height
      project_height + 10)).sum

/-- `SectionAnalyzer.analyze_cv_sections`. -/
def analyze_cv_sections (cv_data : CVData) (page_constraints : PageConstraints)
    (layout_type : LayoutType) : List SectionDimensions :=
  let content_width :=
    if layout_type = LayoutType.TWO_COLUMN ∨
        layout_type = LayoutType.MODERN_SIDEBAR then
      page_constraints.content_width_mm * 0.65
    else page_constraints.content_width_mm
  let header_secs : List SectionDimensions :=
    match cv_data.personal_details with
    | none => []
    | some pd =>
      let header_height := estimate_header_height pd content_width
      [⟨"header", "header", SectionPriority.CRITICAL,
        header_height * 0.8, header_height, header_height * 1.2, false, 0⟩]
  let summary_secs : List SectionDimensions :=
    if cv_data.professional_summary.length ≠ 0 then
      let summary_height :=
        estimate_summary_height cv_data.professional_summary content_width
      [⟨"professional_summary", "summary", SectionPriority.HIGH,
        summary_height * 0.9, summary_height, summary_height * 1.3, true, 0⟩]
    else []
  let experience_secs : List SectionDimensions :=
    if cv_data.work_experience.length ≠ 0 then
      let ec := estimate_experience_height cv_data.work_experience content_width
      [⟨"work_experience", "experience", SectionPriority.CRITICAL,
        ec.1 * 0.7, ec.1, ec.1 * 1.4, true, ec.2⟩]
    else []
  let skills_secs : List SectionDimensions :=
    if cv_data.skills.length ≠ 0 then
      let skills_height :=
        estimate_skills_height cv_data.skills content_width layout_type
      [⟨"skills", "skills", SectionPriority.HIGH,
        skills_height * 0.8, skills_height, skills_height * 1.5, true, 0⟩]
    else []
  let education_secs : List SectionDimensions :=
    if cv_data.education.length ≠ 0 then
      let ec := estimate_education_height cv_data.education content_width
      [⟨"education", "education", SectionPriority.MEDIUM,
        ec.1 * 0.9, ec.1, ec.1 * 1.3, true, ec.2⟩]
    else []
  let projects_secs : List SectionDimensions :=
    if cv_data.projects.length ≠ 0 then
      let projects_height :=
        estimate_projects_height cv_data.projects content_width
      [⟨"projects", "projects", SectionPriority.MEDIUM,
        projects_height * 0.8, projects_height, projects_height * 1.4, true, 0⟩]
    else []
  header_secs ++ summary_secs ++ experience_secs ++ skills_secs ++
    education_secs ++ projects_secs

/-- Loop state of `_optimize_single_column`: accumulated pages, the page
being filled, the vertical cursor, the 1-based page counter, and the
overflow list. -/
structure SCState where
  pages : List (List LayoutElement)
  current_page : List LayoutElement
  current_y : ℚ
  page_number : ℕ
  overflow_sections : List String
deriving DecidableEq, Inhabited

/-- The element `_optimize_single_column` builds for a section placed at a
given `y` with a given height on a given page. -/
def mkSectionElement (c : PageConstraints) (s : SectionDimensions)
    (y : ℚ) (h : ℚ) (page : ℕ) : LayoutElement :=
  ⟨s.section_id, "section", c.margin_left_mm, y, c.content_width_mm, h, page, 0⟩

/-- Outcome of the split branch of the single-column loop: the section is
placed at `min_height_mm` on the current page, and its id is appended to
`overflow_sections` when `max_height_mm > min_height_mm`. -/
def splitState (c : PageConstraints) (st : SCState) (s : SectionDimensions) :
    SCState :=
  { st with
    current_page := st.current_page ++
      [mkSectionElement c s st.current_y s.min_height_mm st.page_number],
    current_y := st.current_y + s.min_height_mm + 5,
    overflow_sections :=
      if s.max_height_mm > s.min_height_mm then
        st.overflow_sections ++ [s.section_id]
      else st.overflow_sections }

/-- One iteration of the `for section in sections` loop of
`_optimize_single_column` (`available_height` in the source is
`constraints.content_height_mm`, computed once before the loop). -/
def scStep (c : PageConstraints) (st : SCState) (s : SectionDimensions) :
    SCState :=
  if st.current_y + s.preferred_height_mm ≤ c.height_mm - c.margin_bottom_mm then
    { st with
      current_page := st.current_page ++
        [mkSectionElement c s st.current_y s.preferred_height_mm st.page_number],
      current_y := st.current_y + s.preferred_height_mm + 5 }
  else if s.can_split = true ∧ s.min_height_mm < c.content_height_mm then
    splitState c st s
  else
    let height_to_use := min s.preferred_height_mm c.content_height_mm
    { pages :=
        if st.current_page.length ≠ 0 then st.pages ++ [st.current_page]
        else st.pages,
      current_page :=
        [mkSectionElement c s c.margin_top_mm height_to_use (st.page_number + 1)],
      current_y := c.margin_top_mm + height_to_use + 5,
      page_number := st.page_number + 1,
      overflow_sections := st.overflow_sections }

/-- `LayoutOptimizer._calculate_layout_score`. Note the hardcoded
`page_height = 297 - 40` in the utilization pass. -/
def calculate_layout_score (pages : List (List LayoutElement))
    (overflow_sections : List String)
    (sections : List SectionDimensions) : ℚ :=
  let score : ℚ := 100
  let score :=
    if pages.length > 1 then score - ((pages.length : ℚ) - 1) * 15 else score
  let score := score - (overflow_sections.length : ℚ) * 10
  let score := pages.foldl (fun sc page =>
    let total_height := (page.map (fun e => e.height_mm)).sum
    let page_height : ℚ := 297 - 40
    let utilization := total_height / page_height
    if utilization < 0.7 then sc - 10
    else if utilization > 0.95 then sc - 15
    else sc) score
  let score :=
    match pages with
    | [] => score
    | first_page :: _ =>
      let first_page_ids := first_page.map (fun e => e.element_id)
      let critical_sections :=
        (sections.filter (fun s => s.priority = SectionPriority.CRITICAL)).map
          (fun s => s.section_id)
      let critical_on_first :=
        (critical_sections.filter (fun id => id ∈ first_page_ids)).length
      score + (critical_on_first : ℚ) * 5
  max 0 (min 100 score)

/-- Modelled from the spec: the utilization pass of the layout score as the
claim states it, with utilization measured against the `content_height`
derived from the `PageConstraints` passed to the optimizer (everything else
as in `calculate_layout_score`). Used only to compare against the code's
scoring function. -/
def calculate_layout_score_spec (c : PageConstraints)
    (pages : List (List LayoutElement))
    (overflow_sections : List String)
    (sections : List SectionDimensions) : ℚ :=
  let score : ℚ := 100
  let score :=
    if pages.length > 1 then score - ((pages.length : ℚ) - 1) * 15 else score
  let score := score - (overflow_sections.length : ℚ) * 10
  let score := pages.foldl (fun sc page =>
    let total_height := (page.map (fun e => e.height_mm)).sum
    let utilization := total_height / c.content_height_mm
    if utilization < 0.7 then sc - 10
    else if utilization > 0.95 then sc - 15
    else sc) score
  let score :=
    match pages with
    | [] => score
    | first_page :: _ =>
      let first_page_ids := first_page.map (fun e => e.element_id)
      let critical_sections :=
        (sections.filter (fun s => s.priority = SectionPriority.CRITICAL)).map
          (fun s => s.section_id)
      let critical_on_first :=
        (critical_sections.filter (fun id => id ∈ first_page_ids)).length
      score + (critical_on_first : ℚ) * 5
  max 0 (min 100 score)

/-- `LayoutOptimizer._generate_layout_recommendations`. -/
def generate_layout_recommendations (pages : List (List LayoutElement))
    (overflow_sections : List String)
    (sections : List SectionDimensions) (score : ℚ) : List String :=
  let recommendations : List String := []
  let recommendations :=
    if pages.length > 2 then
      recommendations ++ ["Consider condensing content to fit within 2 pages"]
    else recommendations
  let recommendations :=
    if overflow_sections.length ≠ 0 then
      recommendations ++
        ["Sections may be truncated: " ++ String.intercalate ", " overflow_sections]
    else recommendations
  let recommendations :=
    if score < 70 then
      recommendations ++ ["Layout could be optimized for better presentation"]
    else recommendations
  let recommendations :=
    match pages with
    | [] => recommendations
    | first_page :: _ =>
      if (first_page.map (fun e => e.height_mm)).sum > 250 then
        recommendations ++
          ["Consider moving some content to second page for better balance"]
      else recommendations
  let recommendations :=
    match sections.filter (fun s => s.section_type = "experience") with
    | [] => recommendations
    | e :: _ =>
      if e.items_count > 5 then
        recommendations ++
          ["Consider limiting work experience to 4-5 most relevant positions"]
      else recommendations
  if recommendations.length = 0 then
    ["Layout is well-optimized for readability and ATS compatibility"]
  else recommendations

/-- `LayoutOptimizer._optimize_single_column`. -/
def optimize_single_column (sections : List SectionDimensions)
    (constraints : PageConstraints) : LayoutResult :=
  let st := sections.foldl (scStep constraints)
    ⟨[], [], constraints.margin_top_mm, 1, []⟩
  let pages :=
    if st.current_page.length ≠ 0 then st.pages ++ [st.current_page]
    else st.pages
  let layout_score := calculate_layout_score pages st.overflow_sections sections
  let recommendations :=
    generate_layout_recommendations pages st.overflow_sections sections
      layout_score
  ⟨pages, pages.length, st.overflow_sections, layout_score, recommendations⟩

/-- `LayoutOptimizer._optimize_two_column` (also used for the sidebar
strategy). -/
def optimize_two_column (sections : List SectionDimensions)
    (constraints : PageConstraints) : LayoutResult :=
  let is_main := fun (s : SectionDimensions) =>
    s.section_type = "header" ∨ s.section_type = "professional_summary" ∨
      s.section_type = "work_experience"
  let main_sections := sections.filter (fun s => is_main s)
  let sidebar_sections := sections.filter (fun s => ¬ is_main s)
  let main_width := constraints.content_width_mm * 0.65
  let sidebar_width := constraints.content_width_mm * 0.30
  let sidebar_x := constraints.margin_left_mm + main_width + 10
  let page_number : ℕ := 1
  let main_elems :=
    (main_sections.foldl (fun (acc : List LayoutElement × ℚ) s =>
      (acc.1 ++ [⟨s.section_id, "section", constraints.margin_left_mm, acc.2,
        main_width, s.preferred_height_mm, page_number, 0⟩],
       acc.2 + s.preferred_height_mm + 5))
      ([], constraints.margin_top_mm)).1
  let sidebar_elems :=
    (sidebar_sections.foldl (fun (acc : List LayoutElement × ℚ) s =>
      (acc.1 ++ [⟨s.section_id, "section", sidebar_x, acc.2,
        sidebar_width, s.preferred_height_mm, page_number, 0⟩],
       acc.2 + s.preferred_height_mm + 5))
      ([], constraints.margin_top_mm + 60)).1
  let current_page := main_elems ++ sidebar_elems
  ⟨[current_page], 1, [], 85,
    ["Two-column layout provides good information density"]⟩

/-- `LayoutOptimizer.optimize_layout` (sections are analyzed, then the
strategy matching the layout type runs; unrecognized types fall back to
single column). -/
def optimize_layout (cv_data : CVData) (layout_type : LayoutType)
    (page_constraints : PageConstraints) : LayoutResult :=
  let sections := analyze_cv_sections cv_data page_constraints layout_type
  match layout_type with
  | LayoutType.TWO_COLUMN => optimize_two_column sections page_constraints
  | LayoutType.MODERN_SIDEBAR => optimize_two_column sections page_constraints
  | _ => optimize_single_column sections page_constraints

theorem estimate_text_height_nonneg (text : String) (font_size : ℤ)
    (w lh : ℚ) (hf : 0 ≤ font_size) (hl : 0 ≤ lh) :
    0 ≤ estimate_text_height text font_size w lh := by
  have hfq : (0 : ℚ) ≤ (font_size : ℚ) := by exact_mod_cast hf
  by_cases h0 : text.length = 0
  · simp [estimate_text_height, h0]
  · simp only [estimate_text_height, h0, if_false]
    by_cases hc : intTrunc (w / char_width_for font_size) ≤ 0
    · simp only [hc, if_true]
      exact mul_nonneg hfq (by norm_num)
    · simp only [hc, if_false]
      have hcpos : (0 : ℚ) < (intTrunc (w / char_width_for font_size) : ℚ) := by
        exact_mod_cast lt_of_not_le hc
      have hdiv : (0 : ℚ) ≤ (text.length : ℚ) /
          (intTrunc (w / char_width_for font_size) : ℚ) :=
        div_nonneg (by positivity) (le_of_lt hcpos)
      have hceil : (0 : ℤ) ≤ ⌈(text.length : ℚ) /
          (intTrunc (w / char_width_for font_size) : ℚ)⌉ :=
        Int.ceil_nonneg hdiv
      have : (0 : ℚ) ≤ (font_size : ℚ) * 0.35 * lh := by positivity
      exact mul_nonneg (by exact_mod_cast hceil) this

theorem estimate_list_height_nonneg (items : List String) (font_size : ℤ)
    (w lh : ℚ) (hf : 0 ≤ font_size) (hl : 0 ≤ lh) :
    0 ≤ estimate_list_height items font_size w lh := by
  unfold estimate_list_height
  apply List.sum_nonneg
  intro x hx
  simp only [List.mem_map] at hx
  obtain ⟨item, _, rfl⟩ := hx
  have := estimate_text_height_nonneg item font_size w lh hf hl
  linarith

theorem estimate_header_height_nonneg (pd : PersonalDetails) (w : ℚ) :
    0 ≤ estimate_header_height pd w := by
  unfold estimate_header_height
  have h1 : (0 : ℚ) ≤
      (if pd.full_name.length ≠ 0 then
        estimate_text_height pd.full_name 24 w 1.3 + 5 else 0) := by
    split
    · have := estimate_text_height_nonneg pd.full_name 24 w 1.3
        (by norm_num) (by norm_num)
      linarith
    · exact le_refl 0
  have h2 : (0 : ℚ) ≤
      (if pd.desired_position.length ≠ 0 then
        estimate_text_height pd.desired_position 16 w 1.3 + 3 else 0) := by
    split
    · have := estimate_text_height_nonneg pd.desired_position 16 w 1.3
        (by norm_num) (by norm_num)
      linarith
    · exact le_refl 0
  have h3 : ∀ n : ℕ, (0 : ℚ) ≤
      (if n ≠ 0 then (⌈(n : ℚ) / 2⌉ : ℚ) * (11 * 0.35 * 1.4) + 5 else 0) := by
    intro n
    split
    · have hceil : (0 : ℤ) ≤ ⌈(n : ℚ) / 2⌉ :=
        Int.ceil_nonneg (div_nonneg (by positivity) (by norm_num))
      have : (0 : ℚ) ≤ (⌈(n : ℚ) / 2⌉ : ℚ) := by exact_mod_cast hceil
      nlinarith
    · exact le_refl 0
  have := h3 ([pd.email, pd.phone, pd.location, pd.linkedin_url].filter
    (fun s => s.length ≠ 0)).length
  linarith

theorem estimate_summary_height_nonneg (summary : String) (w : ℚ) :
    0 ≤ estimate_summary_height summary w := by
  unfold estimate_summary_height
  have := estimate_text_height_nonneg summary 11 w 1.5 (by norm_num) (by norm_num)
  norm_num
  linarith

theorem estimate_experience_height_nonneg (l : List Experience) (w : ℚ) :
    0 ≤ (estimate_experience_height l w).1 := by
  unfold estimate_experience_height
  have hsum : (0 : ℚ) ≤ (l.map (fun exp =>
      let job_info_height : ℚ := 2 * (11 * 0.35 * 1.4) + 5
      let job_info_height :=
        if exp.achievements.length ≠ 0 then
          job_info_height + estimate_list_height exp.achievements 11 (w - 10) 1.5
        else job_info_height
      job_info_height + 15)).sum := by
    apply List.sum_nonneg
    intro x hx
    simp only [List.mem_map] at hx
    obtain ⟨exp, _, rfl⟩ := hx
    have hl := estimate_list_height_nonneg exp.achievements 11 (w - 10) 1.5
      (by norm_num) (by norm_num)
    split <;> linarith
  linarith

theorem estimate_skills_height_nonneg (skills : List (String × List String))
    (w : ℚ) (lt : LayoutType) : 0 ≤ estimate_skills_height skills w lt := by
  unfold estimate_skills_height
  split
  · positivity
  · set s1 : ℕ := (skills.map (fun p => p.2.length)).sum with hs1
    set d : ℤ := max 1 (intTrunc (w / 40)) with hd
    have hdq : (0 : ℚ) < (d : ℚ) := by
      have h1 : (1 : ℤ) ≤ d := le_max_left 1 _
      exact_mod_cast lt_of_lt_of_le Int.zero_lt_one h1
    have hceil : (0 : ℤ) ≤ ⌈((s1 : ℚ)) / ((d : ℚ))⌉ :=
      Int.ceil_nonneg (div_nonneg (by positivity) (le_of_lt hdq))
    have hceilq : (0 : ℚ) ≤ (⌈((s1 : ℚ)) / ((d : ℚ))⌉ : ℚ) := by
      exact_mod_cast hceil
    have hlen : (0 : ℚ) ≤ (skills.length : ℚ) := by positivity
    linarith

theorem estimate_education_height_nonneg (l : List Education) (w : ℚ) :
    0 ≤ (estimate_education_height l w).1 := by
  unfold estimate_education_height
  have hsum : (0 : ℚ) ≤ (l.map (fun _ => (3 * (11 * 0.35 * 1.4) + 10 : ℚ))).sum := by
    apply List.sum_nonneg
    intro x hx
    simp only [List.mem_map] at hx
    obtain ⟨_, _, rfl⟩ := hx
    norm_num
  dsimp only
  linarith

theorem estimate_projects_height_nonneg (l : List Project) (w : ℚ) :
    0 ≤ estimate_projects_height l w := by
  unfold estimate_projects_height
  have hsum : (0 : ℚ) ≤ (l.map (fun project =>
      let project_height : ℚ := 11 * 0.35 * 1.4 + 3
      let project_height :=
        if project.description.length ≠ 0 then
          project_height + estimate_text_height project.description 10 w 1.4
        else project_height
      let project_height :=
        if project.technologies.length ≠ 0 then
          project_height + (10 * 0.35 * 1.4 + 5)
        else project_height
      project_height + 10)).sum := by
    apply List.sum_nonneg
    intro x hx
    simp only [List.mem_map] at hx
    obtain ⟨project, _, rfl⟩ := hx
    have hd := estimate_text_height_nonneg project.description 10 w 1.4
      (by norm_num) (by norm_num)
    split <;> split <;> linarith
  linarith

/-- Every section the analyzer emits has a nonnegative preferred height and
satisfies the min/preferred/max ordering. -/
theorem analyze_sections_bounds (cv : CVData) (pc : PageConstraints)
    (lt : LayoutType) :
    ∀ s ∈ analyze_cv_sections cv pc lt,
      0 ≤ s.min_height_mm ∧ 0 ≤ s.preferred_height_mm ∧
      s.min_height_mm ≤ s.preferred_height_mm ∧
      s.preferred_height_mm ≤ s.max_height_mm := by
  intro s hs
  unfold analyze_cv_sections at hs
  simp only [List.mem_append] at hs
  rcases hs with ((((h | h) | h) | h) | h) | h
  · rcases hpd : cv.personal_details with _ | pd <;> rw [hpd] at h
    · simp at h
    · simp only [List.mem_singleton] at h
      subst h
      have h0 := estimate_header_height_nonneg pd
        (if lt = LayoutType.TWO_COLUMN ∨ lt = LayoutType.MODERN_SIDEBAR then
          pc.content_width_mm * 0.65 else pc.content_width_mm)
      refine ⟨by dsimp only; linarith, by dsimp only; linarith,
        by dsimp only; linarith, by dsimp only; linarith⟩
  · split at h
    · simp only [List.mem_singleton] at h
      subst h
      have h0 := estimate_summary_height_nonneg cv.professional_summary
        (if lt = LayoutType.TWO_COLUMN ∨ lt = LayoutType.MODERN_SIDEBAR then
          pc.content_width_mm * 0.65 else pc.content_width_mm)
      refine ⟨by dsimp only; linarith, by dsimp only; linarith,
        by dsimp only; linarith, by dsimp only; linarith⟩
    · simp at h
  · split at h
    · simp only [List.mem_singleton] at h
      subst h
      have h0 := estimate_experience_height_nonneg cv.work_experience
        (if lt = LayoutType.TWO_COLUMN ∨ lt = LayoutType.MODERN_SIDEBAR then
          pc.content_width_mm * 0.65 else pc.content_width_mm)
      refine ⟨by dsimp only; linarith, by dsimp only; linarith,
        by dsimp only; linarith, by dsimp only; linarith⟩
    · simp at h
  · split at h
    · simp only [List.mem_singleton] at h
      subst h
      have h0 := estimate_skills_height_nonneg cv.skills
        (if lt = LayoutType.TWO_COLUMN ∨ lt = LayoutType.MODERN_SIDEBAR then
          pc.content_width_mm * 0.65 else pc.content_width_mm) lt
      refine ⟨by dsimp only; linarith, by dsimp only; linarith,
        by dsimp only; linarith, by dsimp only; linarith⟩
    · simp at h
  · split at h
    · simp only [List.mem_singleton] at h
      subst h
      have h0 := estimate_education_height_nonneg cv.education
        (if lt = LayoutType.TWO_COLUMN ∨ lt = LayoutType.MODERN_SIDEBAR then
          pc.content_width_mm * 0.65 else pc.content_width_mm)
      refine ⟨by dsimp only; linarith, by dsimp only; linarith,
        by dsimp only; linarith, by dsimp only; linarith⟩
    · simp at h
  · split at h
    · simp only [List.mem_singleton] at h
      subst h
      have h0 := estimate_projects_height_nonneg cv.projects
        (if lt = LayoutType.TWO_COLUMN ∨ lt = LayoutType.MODERN_SIDEBAR then
          pc.content_width_mm * 0.65 else pc.content_width_mm)
      refine ⟨by dsimp only; linarith, by dsimp only; linarith,
        by dsimp only; linarith, by dsimp only; linarith⟩
    · simp at h

theorem calculate_layout_score_range (pages : List (List LayoutElement))
    (ov : List String) (secs : List SectionDimensions) :
    0 ≤ calculate_layout_score pages ov secs ∧
    calculate_layout_score pages ov secs ≤ 100 := by
  simp only [calculate_layout_score]
  exact ⟨le_max_left 0 _, max_le (by norm_num) (min_le_left 100 _)⟩

theorem single_column_score_range (secs : List SectionDimensions)
    (pc : PageConstraints) :
    0 ≤ (optimize_single_column secs pc).layout_score ∧
    (optimize_single_column secs pc).layout_score ≤ 100 := by
  simp only [optimize_single_column]
  exact calculate_layout_score_range _ _ _

/-- C8: every `SectionDimensions` produced by `analyze_cv_sections`, for any
input content and positive page constraints, satisfies
`min_height ≤ preferred_height ≤ max_height`. -/
theorem C8_section_bounds_ordered (cv : CVData) (pc : PageConstraints)
    (lt : LayoutType)
    (hw : 0 < pc.width_mm) (hh : 0 < pc.height_mm)
    (hmt : 0 < pc.margin_top_mm) (hmb : 0 < pc.margin_bottom_mm)
    (hml : 0 < pc.margin_left_mm) (hmr : 0 < pc.margin_right_mm) :
    ∀ s ∈ analyze_cv_sections cv pc lt,
      s.min_height_mm ≤ s.preferred_height_mm ∧
      s.preferred_height_mm ≤ s.max_height_mm := by
  intro s hs
  exact ⟨(analyze_sections_bounds cv pc lt s hs).2.2.1,
    (analyze_sections_bounds cv pc lt s hs).2.2.2⟩

/-- A one-section content value used to instantiate universally quantified
theorems at a concrete input. -/
def cvSummaryOnly : CVData := ⟨none, "a", [], [], [], []⟩

theorem C8_section_bounds_ordered_witness :
    ((analyze_cv_sections cvSummaryOnly defaultPageConstraints
        LayoutType.SINGLE_COLUMN).getD 0 default).min_height_mm ≤
      ((analyze_cv_sections cvSummaryOnly defaultPageConstraints
        LayoutType.SINGLE_COLUMN).getD 0 default).preferred_height_mm ∧
    ((analyze_cv_sections cvSummaryOnly defaultPageConstraints
        LayoutType.SINGLE_COLUMN).getD 0 default).preferred_height_mm ≤
      ((analyze_cv_sections cvSummaryOnly defaultPageConstraints
        LayoutType.SINGLE_COLUMN).getD 0 default).max_height_mm :=
  C8_section_bounds_ordered cvSummaryOnly defaultPageConstraints
    LayoutType.SINGLE_COLUMN (by norm_num [defaultPageConstraints])
    (by norm_num [defaultPageConstraints]) (by norm_num [defaultPageConstraints])
    (by norm_num [defaultPageConstraints]) (by norm_num [defaultPageConstraints])
    (by norm_num [defaultPageConstraints]) _
    (by norm_num [analyze_cv_sections, cvSummaryOnly, estimate_summary_height,
      estimate_text_height, intTrunc, char_width_for, defaultPageConstraints,
      PageConstraints.content_width_mm, List.getD_cons_zero,
      show "a".length = 1 from rfl])

/-- C10: for every input content, layout type, and page constraints, the
layout score of the result returned by `optimize_layout` lies in `[0, 100]`
(single-column computes and clamps a score; two-column and sidebar return a
constant 85). -/
theorem C10_layout_score_in_range (cv : CVData) (lt : LayoutType)
    (pc : PageConstraints) :
    0 ≤ (optimize_layout cv lt pc).layout_score ∧
    (optimize_layout cv lt pc).layout_score ≤ 100 := by
  cases lt <;> simp only [optimize_layout] <;>
    first
      | exact single_column_score_range _ _
      | (simp only [optimize_two_column]; norm_num)

/-- Content whose `personal_details` key is present but maps to an empty
mapping (every field empty), and no other section. -/
def cvEmptyPersonalDetails : CVData :=
  ⟨some ⟨"", "", "", "", "", ""⟩, "", [], [], [], []⟩

/-- C7 counterexample: the claim says no header entry is produced when
`personal_details` is an empty mapping, but the code tests only key
presence (`"personal_details" in cv_data`), so the analyzer emits a header
section for `cvEmptyPersonalDetails`. -/
theorem C7_counterexample :
    (analyze_cv_sections cvEmptyPersonalDetails defaultPageConstraints
      LayoutType.SINGLE_COLUMN).map SectionDimensions.section_id =
      ["header"] := by
  norm_num [analyze_cv_sections, cvEmptyPersonalDetails,
    show "".length = 0 from rfl]

/-- C7 amended: section analysis produces exactly one `SectionDimensions`
per non-empty section, in the order header, summary, experience, skills,
education, projects, and no placeholder for absent or empty sections —
except the header, which is produced whenever the `personal_details` key is
present, even when it maps to an empty mapping. -/
theorem C7_amended_sections_present (cv : CVData) (pc : PageConstraints)
    (lt : LayoutType) :
    (analyze_cv_sections cv pc lt).map
        (fun s => (s.section_id, s.section_type)) =
      (if cv.personal_details.isSome then [("header", "header")] else []) ++
      (if cv.professional_summary.length ≠ 0 then
        [("professional_summary", "summary")] else []) ++
      (if cv.work_experience.length ≠ 0 then
        [("work_experience", "experience")] else []) ++
      (if cv.skills.length ≠ 0 then [("skills", "skills")] else []) ++
      (if cv.education.length ≠ 0 then [("education", "education")] else []) ++
      (if cv.projects.length ≠ 0 then [("projects", "projects")] else []) := by
  unfold analyze_cv_sections
  rcases hpd : cv.personal_details with _ | pd <;>
    simp only [hpd, Option.isSome_none, Option.isSome_some, List.map_append,
      Bool.false_eq_true, if_false, if_true, List.map_nil] <;>
    split_ifs <;> simp

/-- C9 counterexample: the claim quantifies over every font size, width and
line-height multiplier, but at font size `-11` (any size with a negative
line-height product) extending the empty text by a non-empty `"x"` makes
the estimate strictly smaller, not larger: it drops from `0` to a negative
value. -/
theorem C9_counterexample :
    estimate_text_height "" (-11) 100 1.5 = 0 ∧
    estimate_text_height ("" ++ "x") (-11) 100 1.5 < 0 := by
  constructor
  · rfl
  · norm_num [estimate_text_height, intTrunc, char_width_for,
      show ("" ++ "x").length = 1 from rfl, show "x".length = 1 from rfl]

/-- C9 amended: for every nonnegative font size and nonnegative line-height
multiplier (as at every call site), text-height estimation is monotone
under appending non-empty text; the estimate of empty text is `0`; and when
`chars_per_line = int(available_width / char_width) ≤ 0` the estimate of a
non-empty text is one line's height `font_size * 0.35`. -/
theorem C9_amended_text_height_monotone (font_size : ℤ) (w lh : ℚ)
    (a b : String) (hf : 0 ≤ font_size) (hl : 0 ≤ lh) (hb : b.length ≠ 0) :
    estimate_text_height a font_size w lh ≤
      estimate_text_height (a ++ b) font_size w lh ∧
    estimate_text_height "" font_size w lh = 0 ∧
    (a.length ≠ 0 → intTrunc (w / char_width_for font_size) ≤ 0 →
      estimate_text_height a font_size w lh = (font_size : ℚ) * 0.35) := by
  have hfq : (0 : ℚ) ≤ (font_size : ℚ) := by exact_mod_cast hf
  refine ⟨?_, rfl, ?_⟩
  · by_cases ha : a.length = 0
    · have h0 : estimate_text_height a font_size w lh = 0 := by
        simp [estimate_text_height, ha]
      rw [h0]
      exact estimate_text_height_nonneg _ _ _ _ hf hl
    · have hab : (a ++ b).length = a.length + b.length := String.length_append a b
      have hab0 : ¬ (a ++ b).length = 0 := by omega
      simp only [estimate_text_height, ha, hab0, if_false]
      by_cases hc : intTrunc (w / char_width_for font_size) ≤ 0
      · simp only [hc, if_true]
        exact le_rfl
      · simp only [hc, if_false]
        have hcpos : (0 : ℚ) < (intTrunc (w / char_width_for font_size) : ℚ) := by
          exact_mod_cast lt_of_not_le hc
        have hlen : ((a.length : ℚ)) ≤ ((a ++ b).length : ℚ) := by
          rw [hab]; push_cast; linarith [Nat.cast_nonneg (α := ℚ) b.length]
        have hdivle : (a.length : ℚ) / (intTrunc (w / char_width_for font_size) : ℚ) ≤
            ((a ++ b).length : ℚ) / (intTrunc (w / char_width_for font_size) : ℚ) :=
          (div_le_div_right hcpos).mpr hlen
        have hceil := Int.ceil_mono hdivle
        have hceilq : ((⌈(a.length : ℚ) /
            (intTrunc (w / char_width_for font_size) : ℚ)⌉ : ℚ)) ≤
            ((⌈((a ++ b).length : ℚ) /
            (intTrunc (w / char_width_for font_size) : ℚ)⌉ : ℚ)) := by
          exact_mod_cast hceil
        have hlhm : (0 : ℚ) ≤ (font_size : ℚ) * 0.35 * lh := by positivity
        exact mul_le_mul_of_nonneg_right hceilq hlhm
  · intro ha hc
    simp only [estimate_text_height, ha, hc, if_false, if_true]

theorem C9_amended_text_height_monotone_witness :
    estimate_text_height "x" 11 100 1.5 ≤
      estimate_text_height ("x" ++ "y") 11 100 1.5 :=
  (C9_amended_text_height_monotone 11 100 1.5 "x" "y" (by norm_num)
    (by norm_num) (by decide)).1

/-- The `target_format="web"` constraints from the service layer:
190×1000mm with 10mm side margins. -/
def webPageConstraints : PageConstraints := ⟨190, 1000, 20, 20, 10, 10⟩

/-- A single non-splittable section used to exercise the scoring pass. -/
def secScoreDemo : SectionDimensions :=
  ⟨"education", "education", SectionPriority.MEDIUM, 180, 200, 220, false, 1⟩

/-- C2 counterexample: on web constraints (content height 960mm) a page
holding 200mm of content is under-filled by the claim's formula
(200/960 < 0.7, penalty 10, score 90), but the code divides by the
hardcoded A4 value 257 (200/257 ≈ 0.78, no penalty, score 100), so the
returned score differs from the claim's for a non-A4 `PageConstraints`. -/
theorem C2_counterexample :
    (optimize_single_column [secScoreDemo] webPageConstraints).layout_score
      = 100 ∧
    calculate_layout_score_spec webPageConstraints
      (optimize_single_column [secScoreDemo] webPageConstraints).pages
      (optimize_single_column [secScoreDemo] webPageConstraints).overflow_sections
      [secScoreDemo] = 90 := by
  norm_num [optimize_single_column, scStep, mkSectionElement, splitState,
    calculate_layout_score, calculate_layout_score_spec,
    webPageConstraints, secScoreDemo, List.filter_cons, List.filter_nil,
    show decide (SectionPriority.MEDIUM = SectionPriority.CRITICAL) = false
      from rfl,
    PageConstraints.content_height_mm, PageConstraints.content_width_mm]

/-- C2 amended: the utilization penalty divides by the constant 257mm
(A4: 297 − 40) whatever `PageConstraints` the optimizer received; it agrees
with the claim's constraints-derived formula exactly on constraints whose
content height equals 257mm (such as default A4). -/
theorem C2_amended_score_fixed_divisor (c : PageConstraints)
    (pages : List (List LayoutElement)) (ov : List String)
    (secs : List SectionDimensions) (h : c.content_height_mm = 257) :
    calculate_layout_score pages ov secs =
      calculate_layout_score_spec c pages ov secs := by
  simp only [calculate_layout_score, calculate_layout_score_spec, h]
  norm_num

/-- A placed element used to instantiate scoring theorems concretely. -/
def elemScoreDemo : LayoutElement := ⟨"header", "section", 20, 20, 170, 200, 1, 0⟩

theorem C2_amended_score_fixed_divisor_witness :
    calculate_layout_score [[elemScoreDemo]] [] [] =
      calculate_layout_score_spec defaultPageConstraints [[elemScoreDemo]] [] [] :=
  C2_amended_score_fixed_divisor defaultPageConstraints [[elemScoreDemo]] [] []
    (by norm_num [defaultPageConstraints, PageConstraints.content_height_mm])

/-- A section that fits at preferred height at the top of an A4 page. -/
def secFitsDemo : SectionDimensions :=
  ⟨"header", "header", SectionPriority.CRITICAL, 160, 200, 240, false, 0⟩

/-- A splittable section whose minimum height does not fit in the space
remaining under `secFitsDemo` on an A4 page. -/
def secSplitDemo : SectionDimensions :=
  ⟨"professional_summary", "summary", SectionPriority.HIGH, 60, 100, 130, true, 0⟩

/-- C1 counterexample: after placing a 200mm section (cursor at 225mm), the
splittable section's `min_height` of 60mm does not fit in the remaining
space (225 + 60 > 297 − 20), yet the pass still places it at `min_height`
on the current page — the code compares `min_height` against the full
content height, not the remaining space, so the claim's "exactly when"
fails. -/
theorem C1_counterexample :
    (optimize_single_column [secFitsDemo, secSplitDemo]
      defaultPageConstraints).pages =
      [[⟨"header", "section", 20, 20, 170, 200, 1, 0⟩,
        ⟨"professional_summary", "section", 20, 225, 170, 60, 1, 0⟩]] ∧
    ¬(((20 : ℚ) + 200 + 5) + secSplitDemo.min_height_mm ≤
        defaultPageConstraints.height_mm - defaultPageConstraints.margin_bottom_mm) := by
  constructor
  · norm_num [optimize_single_column, scStep, splitState, mkSectionElement,
      defaultPageConstraints, secFitsDemo, secSplitDemo,
      PageConstraints.content_height_mm, PageConstraints.content_width_mm]
  · norm_num [secSplitDemo, defaultPageConstraints]

/-- C1 amended: in the single-column pass, a section whose preferred height
does not fit on the current page is placed at `min_height` on the current
page (with the overflow flag recorded when `max_height > min_height`)
exactly when it `can_split` and `min_height` is strictly less than the full
page content height — regardless of the space remaining on the current
page. -/
theorem C1_amended_split_iff (c : PageConstraints) (st : SCState)
    (s : SectionDimensions)
    (hpref : ¬(st.current_y + s.preferred_height_mm ≤
      c.height_mm - c.margin_bottom_mm)) :
    scStep c st s = splitState c st s ↔
      (s.can_split = true ∧ s.min_height_mm < c.content_height_mm) := by
  constructor
  · intro heq
    by_contra hcond
    have hpn : (scStep c st s).page_number = st.page_number + 1 := by
      unfold scStep
      rw [if_neg hpref, if_neg hcond]
    rw [heq] at hpn
    simp only [splitState] at hpn
    omega
  · intro hcond
    unfold scStep
    rw [if_neg hpref, if_pos hcond]

/-- The loop state reached after placing `secFitsDemo` on page 1 of an A4
page: cursor at 225mm. -/
def stSplitDemo : SCState :=
  ⟨[], [⟨"header", "section", 20, 20, 170, 200, 1, 0⟩], 225, 1, []⟩

theorem C1_amended_split_iff_witness :
    scStep defaultPageConstraints stSplitDemo secSplitDemo =
      splitState defaultPageConstraints stSplitDemo secSplitDemo :=
  (C1_amended_split_iff defaultPageConstraints stSplitDemo secSplitDemo
    (by norm_num [stSplitDemo, secSplitDemo, defaultPageConstraints])).mpr
    (by constructor <;>
      norm_num [secSplitDemo, defaultPageConstraints,
        PageConstraints.content_height_mm])

/-- A non-splittable section larger than a whole A4 content area. -/
def secOversizeDemo : SectionDimensions :=
  ⟨"work_experience", "experience", SectionPriority.CRITICAL, 280, 300, 320,
    false, 2⟩

/-- C3 counterexample: a non-splittable 300mm section exceeds the 257mm
content height, is placed clipped to 257mm by the new-page branch — but its
id is never recorded in `overflow_sections`, although the claim requires it
whenever the preferred height exceeds the content height. -/
theorem C3_counterexample :
    (optimize_single_column [secOversizeDemo]
      defaultPageConstraints).overflow_sections = [] ∧
    (optimize_single_column [secOversizeDemo] defaultPageConstraints).pages =
      [[⟨"work_experience", "section", 20, 20, 170, 257, 2, 0⟩]] ∧
    defaultPageConstraints.content_height_mm <
      secOversizeDemo.preferred_height_mm := by
  refine ⟨?_, ?_, ?_⟩ <;>
    norm_num [optimize_single_column, scStep, splitState, mkSectionElement,
      defaultPageConstraints, secOversizeDemo,
      PageConstraints.content_height_mm, PageConstraints.content_width_mm]

/-- Total number of elements held by a single-column loop state. -/
def scCount (st : SCState) : ℕ :=
  (st.pages.map List.length).sum + st.current_page.length

theorem scStep_count (c : PageConstraints) (st : SCState)
    (s : SectionDimensions) : scCount (scStep c st s) = scCount st + 1 := by
  unfold scStep splitState scCount
  split_ifs with h1 h2 h3 <;>
    simp only [List.map_append, List.sum_append, List.length_append,
      List.map_cons, List.map_nil, List.sum_cons, List.sum_nil,
      List.length_cons, List.length_nil] <;>
    omega

theorem scFold_count (c : PageConstraints) (sections : List SectionDimensions) :
    ∀ st : SCState,
      scCount (List.foldl (scStep c) st sections) = scCount st + sections.length := by
  induction sections with
  | nil => intro st; simp
  | cons s rest ih =>
    intro st
    simp only [List.foldl_cons, ih (scStep c st s), scStep_count, List.length_cons]
    omega

/-- C3 amended: a section that reaches the new-page branch is still placed,
clipped to `min(preferred_height, content_height)`, and `overflow_sections`
is left unchanged by that branch (the id is *not* recorded there — overflow
is flagged only in the split branch); the pass never fails: it places
exactly one element for every input section. -/
theorem C3_amended_newpage_clips_without_overflow :
    (∀ (c : PageConstraints) (st : SCState) (s : SectionDimensions),
      ¬(st.current_y + s.preferred_height_mm ≤
          c.height_mm - c.margin_bottom_mm) →
      ¬(s.can_split = true ∧ s.min_height_mm < c.content_height_mm) →
      (scStep c st s).overflow_sections = st.overflow_sections ∧
      (scStep c st s).current_page =
        [mkSectionElement c s c.margin_top_mm
          (min s.preferred_height_mm c.content_height_mm)
          (st.page_number + 1)]) ∧
    (∀ (sections : List SectionDimensions) (c : PageConstraints),
      (((optimize_single_column sections c).pages).map List.length).sum =
        sections.length) := by
  constructor
  · intro c st s hpref hcond
    unfold scStep
    rw [if_neg hpref, if_neg hcond]
    exact ⟨rfl, rfl⟩
  · intro sections c
    have hfold := scFold_count c sections ⟨[], [], c.margin_top_mm, 1, []⟩
    simp only [optimize_single_column]
    split_ifs with hcp
    · simp only [List.map_append, List.sum_append, List.map_cons,
        List.map_nil, List.sum_cons, List.sum_nil]
      simp only [scCount, List.map_nil, List.sum_nil, List.length_nil] at hfold
      omega
    · simp only [scCount, List.map_nil, List.sum_nil, List.length_nil] at hfold
      simp only [Decidable.not_not] at hcp
      omega

theorem C3_amended_newpage_clips_without_overflow_witness :
    (scStep defaultPageConstraints ⟨[], [], 20, 1, []⟩
      secOversizeDemo).overflow_sections = [] ∧
    (((optimize_single_column [secOversizeDemo]
      defaultPageConstraints).pages).map List.length).sum = 1 :=
  ⟨(C3_amended_newpage_clips_without_overflow.1 defaultPageConstraints
      ⟨[], [], 20, 1, []⟩ secOversizeDemo
      (by norm_num [secOversizeDemo, defaultPageConstraints])
      (by norm_num [secOversizeDemo])).1,
    C3_amended_newpage_clips_without_overflow.2 [secOversizeDemo]
      defaultPageConstraints⟩

/-- C4 counterexample: for the empty section list the summed preferred
heights (0mm) trivially fit within one page's content height, yet the
optimizer returns `total_pages = 0`, not `1`. -/
theorem C4_counterexample :
    (optimize_single_column [] defaultPageConstraints).total_pages = 0 ∧
    ((([] : List SectionDimensions).map
        SectionDimensions.preferred_height_mm).sum ≤
      defaultPageConstraints.content_height_mm) := by
  constructor
  · simp [optimize_single_column, calculate_layout_score,
      generate_layout_recommendations]
  · norm_num [defaultPageConstraints, PageConstraints.content_height_mm]

theorem scFold_all_fit (c : PageConstraints) :
    ∀ (rest : List SectionDimensions) (st : SCState),
      (∀ s ∈ rest, 0 ≤ s.preferred_height_mm) →
      st.current_y + (rest.map SectionDimensions.preferred_height_mm).sum +
          5 * (rest.length : ℚ) ≤
        c.height_mm - c.margin_bottom_mm + 5 →
      ∃ elems : List LayoutElement,
        elems.length = rest.length ∧
        List.foldl (scStep c) st rest =
          ⟨st.pages, st.current_page ++ elems,
            st.current_y +
              (rest.map SectionDimensions.preferred_height_mm).sum +
              5 * (rest.length : ℚ),
            st.page_number, st.overflow_sections⟩ := by
  intro rest
  induction rest with
  | nil =>
    intro st _ _
    refine ⟨[], rfl, ?_⟩
    cases st
    simp
  | cons s rest ih =>
    intro st hpos hle
    have hs0 : 0 ≤ s.preferred_height_mm := hpos s (List.mem_cons_self s rest)
    have hrest0 : 0 ≤ (rest.map SectionDimensions.preferred_height_mm).sum := by
      apply List.sum_nonneg
      intro x hx
      simp only [List.mem_map] at hx
      obtain ⟨t, ht, rfl⟩ := hx
      exact hpos t (List.mem_cons_of_mem s ht)
    have hlen0 : (0 : ℚ) ≤ (rest.length : ℚ) := by positivity
    have hsum : ((s :: rest).map SectionDimensions.preferred_height_mm).sum =
        s.preferred_height_mm +
          (rest.map SectionDimensions.preferred_height_mm).sum := by
      simp
    have hlen : ((s :: rest).length : ℚ) = (rest.length : ℚ) + 1 := by
      push_cast [List.length_cons]
      ring
    have hfit : st.current_y + s.preferred_height_mm ≤
        c.height_mm - c.margin_bottom_mm := by
      rw [hsum, hlen] at hle
      linarith
    have hstep : scStep c st s =
        { st with
          current_page := st.current_page ++
            [mkSectionElement c s st.current_y s.preferred_height_mm
              st.page_number],
          current_y := st.current_y + s.preferred_height_mm + 5 } := by
      unfold scStep
      rw [if_pos hfit]
    obtain ⟨elems, helen, heq⟩ := ih
      { st with
        current_page := st.current_page ++
          [mkSectionElement c s st.current_y s.preferred_height_mm
            st.page_number],
        current_y := st.current_y + s.preferred_height_mm + 5 }
      (fun t ht => hpos t (List.mem_cons_of_mem s ht))
      (by
        simp only
        rw [hsum, hlen] at hle
        linarith)
    refine ⟨mkSectionElement c s st.current_y s.preferred_height_mm
      st.page_number :: elems, by simp [helen], ?_⟩
    simp only [List.foldl_cons, hstep, heq]
    congr 1
    · simp
    · rw [hsum, hlen]
      ring

/-- C4 amended: for every NON-EMPTY section list with nonnegative preferred
heights (as the analyzer always produces), if the summed preferred heights
plus the 5mm inter-section gaps fit within one page's content height, the
result has `total_pages = 1` and no overflow sections. -/
theorem C4_amended_single_page_when_all_fit
    (sections : List SectionDimensions) (c : PageConstraints)
    (hne : sections ≠ [])
    (hpos : ∀ s ∈ sections, 0 ≤ s.preferred_height_mm)
    (hfit : (sections.map SectionDimensions.preferred_height_mm).sum +
        5 * ((sections.length : ℚ) - 1) ≤ c.content_height_mm) :
    (optimize_single_column sections c).total_pages = 1 ∧
    (optimize_single_column sections c).overflow_sections = [] := by
  have hbound : ((⟨[], [], c.margin_top_mm, 1, []⟩ : SCState)).current_y +
      (sections.map SectionDimensions.preferred_height_mm).sum +
      5 * (sections.length : ℚ) ≤
      c.height_mm - c.margin_bottom_mm + 5 := by
    simp only
    have hch : c.content_height_mm =
        c.height_mm - c.margin_top_mm - c.margin_bottom_mm := rfl
    linarith
  obtain ⟨elems, hlen, heq⟩ := scFold_all_fit c sections
    ⟨[], [], c.margin_top_mm, 1, []⟩ hpos hbound
  have helen : elems.length ≠ 0 := by
    rw [hlen]
    intro h
    exact hne (List.length_eq_zero.mp h)
  simp only [optimize_single_column, heq, List.nil_append]
  rw [if_pos helen]
  simp

/-- A small splittable section fitting easily on one A4 page. -/
def secSmallDemo : SectionDimensions :=
  ⟨"professional_summary", "summary", SectionPriority.HIGH, 9, 10, 13, true, 0⟩

theorem C4_amended_single_page_when_all_fit_witness :
    (optimize_single_column [secSmallDemo] defaultPageConstraints).total_pages
      = 1 ∧
    (optimize_single_column [secSmallDemo]
      defaultPageConstraints).overflow_sections = [] :=
  C4_amended_single_page_when_all_fit [secSmallDemo] defaultPageConstraints
    (by simp)
    (by
      intro s hs
      simp only [List.mem_singleton] at hs
      subst hs
      norm_num [secSmallDemo])
    (by norm_num [secSmallDemo, defaultPageConstraints,
      PageConstraints.content_height_mm])

/-- `e1` lies strictly above `e2` with the 5mm inter-section gap. -/
def elemBelow (e1 e2 : LayoutElement) : Prop :=
  e1.y_mm + e1.height_mm + 5 ≤ e2.y_mm

/-- Ordering invariant of the single-column loop: every stored page and the
page under construction are vertically sorted, and the cursor sits below
everything already placed on the current page. -/
def scOrdered (st : SCState) : Prop :=
  (∀ p ∈ st.pages, p.Pairwise elemBelow) ∧
  st.current_page.Pairwise elemBelow ∧
  (∀ e ∈ st.current_page, e.y_mm + e.height_mm + 5 ≤ st.current_y)

theorem pairwise_snoc (l : List LayoutElement) (e : LayoutElement) (y : ℚ)
    (hl : l.Pairwise elemBelow)
    (hc : ∀ a ∈ l, a.y_mm + a.height_mm + 5 ≤ y) (hey : y ≤ e.y_mm) :
    (l ++ [e]).Pairwise elemBelow := by
  rw [List.pairwise_append]
  refine ⟨hl, List.pairwise_singleton _ _, ?_⟩
  intro a ha b hb
  simp only [List.mem_singleton] at hb
  subst hb
  exact le_trans (hc a ha) hey

theorem cursor_snoc (l : List LayoutElement) (e : LayoutElement) (y y2 : ℚ)
    (hc : ∀ a ∈ l, a.y_mm + a.height_mm + 5 ≤ y) (hyy : y ≤ y2)
    (he : e.y_mm + e.height_mm + 5 ≤ y2) :
    ∀ a ∈ l ++ [e], a.y_mm + a.height_mm + 5 ≤ y2 := by
  intro a ha
  rw [List.mem_append] at ha
  rcases ha with ha | ha
  · exact le_trans (hc a ha) hyy
  · simp only [List.mem_singleton] at ha
    subst ha
    exact he

theorem scStep_ordered (c : PageConstraints) (st : SCState)
    (s : SectionDimensions) (hmin : 0 ≤ s.min_height_mm)
    (hpref : 0 ≤ s.preferred_height_mm) (h : scOrdered st) :
    scOrdered (scStep c st s) := by
  obtain ⟨hpages, hcp, hcursor⟩ := h
  by_cases h1 : st.current_y + s.preferred_height_mm ≤
      c.height_mm - c.margin_bottom_mm
  · have hstep : scStep c st s =
        { st with
          current_page := st.current_page ++
            [mkSectionElement c s st.current_y s.preferred_height_mm
              st.page_number],
          current_y := st.current_y + s.preferred_height_mm + 5 } := by
      unfold scStep
      rw [if_pos h1]
    rw [hstep]
    refine ⟨hpages, ?_, ?_⟩
    · exact pairwise_snoc _ _ st.current_y hcp hcursor (le_refl _)
    · exact cursor_snoc _ _ st.current_y _ hcursor (by dsimp only; linarith)
        (by simp [mkSectionElement])
  · by_cases h2 : s.can_split = true ∧ s.min_height_mm < c.content_height_mm
    · have hstep : scStep c st s = splitState c st s := by
        unfold scStep
        rw [if_neg h1, if_pos h2]
      rw [hstep]
      unfold splitState
      refine ⟨hpages, ?_, ?_⟩
      · exact pairwise_snoc _ _ st.current_y hcp hcursor (le_refl _)
      · exact cursor_snoc _ _ st.current_y _ hcursor (by dsimp only; linarith)
          (by simp [mkSectionElement])
    · have hstep : scStep c st s =
          { pages :=
              if st.current_page.length ≠ 0 then st.pages ++ [st.current_page]
              else st.pages,
            current_page :=
              [mkSectionElement c s c.margin_top_mm
                (min s.preferred_height_mm c.content_height_mm)
                (st.page_number + 1)],
            current_y := c.margin_top_mm +
              min s.preferred_height_mm c.content_height_mm + 5,
            page_number := st.page_number + 1,
            overflow_sections := st.overflow_sections } := by
        unfold scStep
        rw [if_neg h1, if_neg h2]
      rw [hstep]
      refine ⟨?_, List.pairwise_singleton _ _, ?_⟩
      · intro p hp
        simp only at hp
        split_ifs at hp with hne
        · rw [List.mem_append] at hp
          rcases hp with hp | hp
          · exact hpages p hp
          · simp only [List.mem_singleton] at hp
            subst hp
            exact hcp
        · exact hpages p hp
      · intro e he
        simp only [List.mem_singleton] at he
        subst he
        simp [mkSectionElement]

theorem scFold_ordered (c : PageConstraints)
    (sections : List SectionDimensions)
    (hs : ∀ s ∈ sections, 0 ≤ s.min_height_mm ∧ 0 ≤ s.preferred_height_mm) :
    ∀ st : SCState, scOrdered st →
      scOrdered (List.foldl (scStep c) st sections) := by
  induction sections with
  | nil => intro st h; exact h
  | cons s rest ih =>
    intro st h
    simp only [List.foldl_cons]
    have hmem := hs s (List.mem_cons_self s rest)
    exact ih (fun t ht => hs t (List.mem_cons_of_mem s ht)) _
      (scStep_ordered c st s hmem.1 hmem.2 h)

theorem elemBelow_disjoint (e1 e2 : LayoutElement) (h : elemBelow e1 e2) :
    Disjoint (Set.Ioo e1.y_mm (e1.y_mm + e1.height_mm))
      (Set.Ioo e2.y_mm (e2.y_mm + e2.height_mm)) := by
  rw [Set.disjoint_left]
  rintro t ⟨-, h1b⟩ ⟨h2a, -⟩
  rw [elemBelow] at h
  linarith

/-- C5: every page produced by the single-column strategy on analyzed
sections has pairwise disjoint open vertical intervals `(y, y + height)` —
elements never overlap vertically. -/
theorem C5_no_vertical_overlap (cv : CVData) (pc : PageConstraints)
    (lt : LayoutType) :
    ∀ page ∈ (optimize_single_column (analyze_cv_sections cv pc lt) pc).pages,
      page.Pairwise (fun e1 e2 =>
        Disjoint (Set.Ioo e1.y_mm (e1.y_mm + e1.height_mm))
          (Set.Ioo e2.y_mm (e2.y_mm + e2.height_mm))) := by
  intro page hpage
  have hb := analyze_sections_bounds cv pc lt
  have hfold := scFold_ordered pc (analyze_cv_sections cv pc lt)
    (fun s hs => ⟨(hb s hs).1, (hb s hs).2.1⟩)
    ⟨[], [], pc.margin_top_mm, 1, []⟩
    ⟨by simp, List.Pairwise.nil, by simp⟩
  obtain ⟨hpages, hcp, -⟩ := hfold
  have hbelow : page.Pairwise elemBelow := by
    simp only [optimize_single_column] at hpage
    split_ifs at hpage with hne
    · rw [List.mem_append] at hpage
      rcases hpage with hp | hp
      · exact hpages page hp
      · simp only [List.mem_singleton] at hp
        subst hp
        exact hcp
    · exact hpages page hpage
  exact hbelow.imp (fun h => elemBelow_disjoint _ _ h)

theorem int_ceil_eq_neg_floor_neg (q : ℚ) : ⌈q⌉ = -⌊-q⌋ := by
  rw [Int.floor_neg, neg_neg]

theorem C5_no_vertical_overlap_witness :
    ((optimize_single_column (analyze_cv_sections cvSummaryOnly
        defaultPageConstraints LayoutType.SINGLE_COLUMN)
      defaultPageConstraints).pages.getD 0 []).Pairwise (fun e1 e2 =>
        Disjoint (Set.Ioo e1.y_mm (e1.y_mm + e1.height_mm))
          (Set.Ioo e2.y_mm (e2.y_mm + e2.height_mm))) :=
  C5_no_vertical_overlap cvSummaryOnly defaultPageConstraints
    LayoutType.SINGLE_COLUMN _ (by
      norm_num [optimize_single_column, analyze_cv_sections, cvSummaryOnly,
        estimate_summary_height, estimate_text_height, intTrunc, char_width_for,
        defaultPageConstraints, PageConstraints.content_width_mm,
        PageConstraints.content_height_mm, scStep, splitState, mkSectionElement,
        show (LayoutType.SINGLE_COLUMN = LayoutType.TWO_COLUMN ∨
          LayoutType.SINGLE_COLUMN = LayoutType.MODERN_SIDEBAR) = False
          from by simp,
        int_ceil_eq_neg_floor_neg,
        show "a".length = 1 from rfl, List.getD_cons_zero])

/-- C6 counterexample: when the very first section overflows (new-page
branch), the code increments `page_number` without a page having been
stored, so the single stored page (outer index 0) holds an element with
`page_number = 2`, while `total_pages = 1`: the outer index does not match
`page_number`, and the largest occurring page number exceeds
`total_pages`. -/
theorem C6_counterexample :
    ((optimize_single_column [secOversizeDemo] defaultPageConstraints).pages.map
      (fun p => p.map LayoutElement.page_number)) = [[2]] ∧
    (optimize_single_column [secOversizeDemo]
      defaultPageConstraints).total_pages = 1 := by
  constructor <;>
    norm_num [optimize_single_column, scStep, splitState, mkSectionElement,
      defaultPageConstraints, secOversizeDemo,
      PageConstraints.content_height_mm, PageConstraints.content_width_mm]

/-- Page-numbering invariant of the single-column loop, valid from the
moment the first element has been placed: the page counter is one past the
stored pages, every stored page is numbered by its index, the open page
carries the current counter, and no page is empty. -/
def scPageInv (st : SCState) : Prop :=
  st.page_number = st.pages.length + 1 ∧
  (∀ i p, st.pages.get? i = some p → ∀ e ∈ p, e.page_number = i + 1) ∧
  (∀ e ∈ st.current_page, e.page_number = st.page_number) ∧
  st.current_page ≠ [] ∧
  (∀ p ∈ st.pages, p ≠ [])

theorem scStep_pageInv (c : PageConstraints) (st : SCState)
    (s : SectionDimensions) (h : scPageInv st) : scPageInv (scStep c st s) := by
  obtain ⟨hpn, hidx, hcur, hne, hpne⟩ := h
  by_cases h1 : st.current_y + s.preferred_height_mm ≤
      c.height_mm - c.margin_bottom_mm
  · have hstep : scStep c st s =
        { st with
          current_page := st.current_page ++
            [mkSectionElement c s st.current_y s.preferred_height_mm
              st.page_number],
          current_y := st.current_y + s.preferred_height_mm + 5 } := by
      unfold scStep
      rw [if_pos h1]
    rw [hstep]
    refine ⟨hpn, hidx, ?_, by simp, hpne⟩
    intro e he
    rcases List.mem_append.mp he with he | he
    · exact hcur e he
    · simp only [List.mem_singleton] at he
      subst he
      rfl
  · by_cases h2 : s.can_split = true ∧ s.min_height_mm < c.content_height_mm
    · have hstep : scStep c st s = splitState c st s := by
        unfold scStep
        rw [if_neg h1, if_pos h2]
      rw [hstep]
      unfold splitState
      refine ⟨hpn, hidx, ?_, by simp, hpne⟩
      intro e he
      rcases List.mem_append.mp he with he | he
      · exact hcur e he
      · simp only [List.mem_singleton] at he
        subst he
        rfl
    · have hlen : st.current_page.length ≠ 0 := by
        intro h0
        exact hne (List.length_eq_zero.mp h0)
      have hstep : scStep c st s =
          { pages := st.pages ++ [st.current_page],
            current_page :=
              [mkSectionElement c s c.margin_top_mm
                (min s.preferred_height_mm c.content_height_mm)
                (st.page_number + 1)],
            current_y := c.margin_top_mm +
              min s.preferred_height_mm c.content_height_mm + 5,
            page_number := st.page_number + 1,
            overflow_sections := st.overflow_sections } := by
        unfold scStep
        rw [if_neg h1, if_neg h2, if_pos hlen]
      rw [hstep]
      refine ⟨?_, ?_, ?_, by simp, ?_⟩
      · simp only [List.length_append, List.length_singleton]
        omega
      · intro i p hip
        rcases Nat.lt_trichotomy i st.pages.length with hi | hi | hi
        · rw [List.get?_append hi] at hip
          exact hidx i p hip
        · subst hi
          rw [List.get?_concat_length] at hip
          injection hip with hip
          subst hip
          intro e he
          rw [hcur e he, hpn]
        · have : (st.pages ++ [st.current_page]).get? i = none := by
            rw [List.get?_eq_none]
            simp only [List.length_append, List.length_singleton]
            omega
          rw [this] at hip
          exact absurd hip (by simp)
      · intro e he
        simp only [List.mem_singleton] at he
        subst he
        rfl
      · intro p hp
        rcases List.mem_append.mp hp with hp | hp
        · exact hpne p hp
        · simp only [List.mem_singleton] at hp
          subst hp
          exact hne

theorem scFold_pageInv (c : PageConstraints)
    (sections : List SectionDimensions) :
    ∀ st : SCState, scPageInv st →
      scPageInv (List.foldl (scStep c) st sections) := by
  induction sections with
  | nil => intro st h; exact h
  | cons s rest ih =>
    intro st h
    simp only [List.foldl_cons]
    exact ih _ (scStep_pageInv c st s h)

/-- C6 amended: provided the FIRST section is placed on page 1 (it fits at
preferred height below the top margin, or it is splittable with
`min_height` under the content height) — i.e. the new-page branch is not
taken for the first section — the pages sequence is consistent with element
page numbers: every element of the page stored at outer index `i` has
`page_number = i + 1`, `total_pages` is the number of stored pages, and
`total_pages` equals the largest occurring page number. -/
theorem C6_amended_page_numbering (c : PageConstraints)
    (s0 : SectionDimensions) (rest : List SectionDimensions) (r : LayoutResult)
    (hfirst : c.margin_top_mm + s0.preferred_height_mm ≤
        c.height_mm - c.margin_bottom_mm ∨
      (s0.can_split = true ∧ s0.min_height_mm < c.content_height_mm))
    (hr : r = optimize_single_column (s0 :: rest) c) :
    (∀ i p, r.pages.get? i = some p → ∀ e ∈ p, e.page_number = i + 1) ∧
    r.total_pages = r.pages.length ∧
    (∀ p ∈ r.pages, ∀ e ∈ p, e.page_number ≤ r.total_pages) ∧
    (∃ p ∈ r.pages, ∃ e ∈ p, e.page_number = r.total_pages) := by
  have hinv1 : scPageInv (scStep c ⟨[], [], c.margin_top_mm, 1, []⟩ s0) := by
    rcases hfirst with hf | hf
    · have hstep : scStep c ⟨[], [], c.margin_top_mm, 1, []⟩ s0 =
          ⟨[], [mkSectionElement c s0 c.margin_top_mm s0.preferred_height_mm 1],
            c.margin_top_mm + s0.preferred_height_mm + 5, 1, []⟩ := by
        unfold scStep
        rw [if_pos hf]
        rfl
      rw [hstep]
      refine ⟨rfl, by simp, ?_, by simp, by simp⟩
      intro e he
      simp only [List.mem_singleton] at he
      subst he
      rfl
    · by_cases hf1 : c.margin_top_mm + s0.preferred_height_mm ≤
          c.height_mm - c.margin_bottom_mm
      · have hstep : scStep c ⟨[], [], c.margin_top_mm, 1, []⟩ s0 =
            ⟨[], [mkSectionElement c s0 c.margin_top_mm s0.preferred_height_mm 1],
              c.margin_top_mm + s0.preferred_height_mm + 5, 1, []⟩ := by
          unfold scStep
          rw [if_pos hf1]
          rfl
        rw [hstep]
        refine ⟨rfl, by simp, ?_, by simp, by simp⟩
        intro e he
        simp only [List.mem_singleton] at he
        subst he
        rfl
      · have hstep : scStep c ⟨[], [], c.margin_top_mm, 1, []⟩ s0 =
            splitState c ⟨[], [], c.margin_top_mm, 1, []⟩ s0 := by
          unfold scStep
          rw [if_neg hf1, if_pos hf]
        rw [hstep]
        unfold splitState
        refine ⟨rfl, by simp, ?_, by simp, by simp⟩
        intro e he
        simp only [List.nil_append, List.mem_singleton] at he
        subst he
        rfl
  have hinv := scFold_pageInv c rest _ hinv1
  obtain ⟨hpn, hidx, hcur, hne, hpne⟩ := hinv
  have hlen : (List.foldl (scStep c)
      (scStep c ⟨[], [], c.margin_top_mm, 1, []⟩ s0) rest).current_page.length
      ≠ 0 := by
    intro h0
    exact hne (List.length_eq_zero.mp h0)
  have hpages : r.pages =
      (List.foldl (scStep c)
        (scStep c ⟨[], [], c.margin_top_mm, 1, []⟩ s0) rest).pages ++
      [(List.foldl (scStep c)
        (scStep c ⟨[], [], c.margin_top_mm, 1, []⟩ s0) rest).current_page] := by
    rw [hr]
    simp only [optimize_single_column, List.foldl_cons]
    rw [if_pos hlen]
  have htotal : r.total_pages = r.pages.length := by
    rw [hr]
    simp only [optimize_single_column, List.foldl_cons]
  set stf := List.foldl (scStep c)
    (scStep c ⟨[], [], c.margin_top_mm, 1, []⟩ s0) rest with hstf
  have hidxr : ∀ i p, r.pages.get? i = some p → ∀ e ∈ p, e.page_number = i + 1 := by
    intro i p hip
    rw [hpages] at hip
    rcases Nat.lt_trichotomy i stf.pages.length with hi | hi | hi
    · rw [List.get?_append hi] at hip
      exact hidx i p hip
    · subst hi
      rw [List.get?_concat_length] at hip
      injection hip with hip
      subst hip
      intro e he
      rw [hcur e he, hpn]
    · have hnone : (stf.pages ++ [stf.current_page]).get? i = none := by
        rw [List.get?_eq_none]
        simp only [List.length_append, List.length_singleton]
        omega
      rw [hnone] at hip
      exact absurd hip (by simp)
  refine ⟨hidxr, htotal, ?_, ?_⟩
  · intro p hp e he
    obtain ⟨i, hi⟩ := List.mem_iff_get.mp hp
    have hip : r.pages.get? i = some p := by
      rw [← hi]
      exact List.get?_eq_get i.isLt
    have := hidxr i p hip e he
    rw [this, htotal]
    have : (i : ℕ) < r.pages.length := i.isLt
    omega
  · refine ⟨stf.current_page, ?_, ?_⟩
    · rw [hpages]
      exact List.mem_append_right _ (List.mem_singleton_self _)
    · obtain ⟨e, he⟩ := List.exists_mem_of_ne_nil stf.current_page hne
      refine ⟨e, he, ?_⟩
      rw [hcur e he, hpn, htotal, hpages]
      simp

theorem C6_amended_page_numbering_witness :
    (optimize_single_column [secSmallDemo]
        defaultPageConstraints).total_pages =
      (optimize_single_column [secSmallDemo]
        defaultPageConstraints).pages.length ∧
    (∃ p ∈ (optimize_single_column [secSmallDemo]
        defaultPageConstraints).pages,
      ∃ e ∈ p, e.page_number =
        (optimize_single_column [secSmallDemo]
          defaultPageConstraints).total_pages) :=
  ⟨(C6_amended_page_numbering defaultPageConstraints secSmallDemo [] _
      (Or.inl (by norm_num [secSmallDemo, defaultPageConstraints])) rfl).2.1,
    (C6_amended_page_numbering defaultPageConstraints secSmallDemo [] _
      (Or.inl (by norm_num [secSmallDemo, defaultPageConstraints])) rfl).2.2.2⟩
